import Mathlib

/-!
# Verification of `scraper.py` (DowLucas/webaiscraper)

A shallow embedding of the `AIScraper` pipeline from `src/scraper.py`:
the email regex scanner (`extract_emails`), the rate limiter
(`_respect_rate_limit` / `get_page_content`), the AI analysis call
(`analyze_with_ai`), and the pipeline drivers (`scrape_website`,
`bulk_scrape`, `search_and_analyze`, `search_web`).

External effects (Google Custom Search HTTP call, page fetches,
BeautifulSoup's `get_text`, the OpenAI chat completion) are supplied by
an explicit environment record `Env`; Python exceptions are embedded as
`Except` / `Option` values; wall-clock time for the rate limiter is an
explicit rational clock.
-/

namespace WebAIScraper

/-! ## Email regex scanner

`extract_emails` (scraper.py lines 91-102) runs
`re.findall(r'[a-zA-Z0-9._%+-]+@[a-zA-Z0-9.-]+\.[a-zA-Z]{2,}', text)`
and deduplicates with `list(set(...))`.  The scanner below embeds the
Python regex engine's behaviour on this particular pattern: leftmost
scan, greedy quantifiers with backtracking, non-overlapping matches. -/

/-- The character class `[a-zA-Z0-9._%+-]` (local part of the pattern). -/
def isClassA (c : Char) : Bool :=
  c.isAlpha || c.isDigit || c == '.' || c == '_' || c == '%' || c == '+' || c == '-'

/-- The character class `[a-zA-Z0-9.-]` (domain part of the pattern). -/
def isClassB (c : Char) : Bool :=
  c.isAlpha || c.isDigit || c == '.' || c == '-'

/-- The character class `[a-zA-Z]` (top-level-domain part of the pattern). -/
def isAsciiLetter (c : Char) : Bool :=
  c.isAlpha

/-- Backtracking over the greedy `[a-zA-Z0-9.-]+` before `\.[a-zA-Z]{2,}`:
`brun` is the maximal class-B run after the `@`; the engine tries the
largest split `kk` first (positions `brun.length - 1` down to `1`),
requiring a literal `.` at index `kk` followed by at least two ASCII
letters.  Returns the number of characters of the tail matched. -/
def tryK (brun : List Char) : Nat → Option Nat
  | 0 => none
  | k + 1 =>
    let kk := k + 1
    let l := (brun.drop (kk + 1)).takeWhile isAsciiLetter
    if brun.getD kk ' ' = '.' ∧ 2 ≤ l.length then some (kk + 1 + l.length)
    else tryK brun k

/-- Match `[a-zA-Z0-9.-]+\.[a-zA-Z]{2,}` at the head of `cs` (the part of
the pattern after the `@`), returning the number of characters matched. -/
def tailMatch (cs : List Char) : Option Nat :=
  let brun := cs.takeWhile isClassB
  tryK brun (brun.length - 1)

/-- Match the whole email pattern at the head of `cs`: a non-empty greedy
class-A run, a literal `@`, then `tailMatch`.  Returns the total match
length.  (`@` is in neither character class, so the regex engine cannot
recover by shrinking the greedy runs past the checks made here.) -/
def matchAt (cs : List Char) : Option Nat :=
  let a := cs.takeWhile isClassA
  if a.length = 0 then none
  else
    match cs.drop a.length with
    | '@' :: rest2 =>
      match tailMatch rest2 with
      | some t => some (a.length + 1 + t)
      | none => none
    | _ => none

/-- `re.findall` scan, fuelled for structural recursion: try a match at
each position left to right; on a match of length `n`, emit it and
continue right after it (matches are non-overlapping); otherwise advance
one character.  Each step consumes at least one character, so fuel
`cs.length` (as supplied by `findall`) never runs out. -/
def findallAux : Nat → List Char → List (List Char)
  | 0, _ => []
  | _, [] => []
  | fuel + 1, c :: rest =>
    match matchAt (c :: rest) with
    | some n => (c :: rest).take n :: findallAux fuel (rest.drop (n - 1))
    | none => findallAux fuel rest

/-- All matches of the email pattern in `cs`, in scan order. -/
def findall (cs : List Char) : List (List Char) :=
  findallAux cs.length cs

/-- `AIScraper.extract_emails` (lines 91-102):
`list(set(re.findall(email_pattern, text)))`. -/
def extract_emails (text : String) : List String :=
  ((findall text.data).map (fun cs => String.mk cs)).dedup

/-- A character list is a full match of the email pattern
`[a-zA-Z0-9._%+-]+@[a-zA-Z0-9.-]+\.[a-zA-Z]{2,}`. -/
def emailShape (cs : List Char) : Prop :=
  ∃ a b l, cs = a ++ '@' :: (b ++ '.' :: l) ∧
    a ≠ [] ∧ (∀ c ∈ a, isClassA c) ∧
    b ≠ [] ∧ (∀ c ∈ b, isClassB c) ∧
    2 ≤ l.length ∧ (∀ c ∈ l, isAsciiLetter c)

/-! ## Pipeline

The stateful / effectful parts of `AIScraper`.  The environment `Env`
packages the external world: the configured credentials, the Google
Custom Search response, page fetches, BeautifulSoup's `get_text`, and
the OpenAI chat-completion endpoint.  A Python exception escaping a call
is embedded as `Except.error`; a caught-and-logged exception inside a
call is embedded as the value the `except` branch returns. -/

/-- One row of the result table: the dict built at scraper.py lines
148-153 (minus the constant `success: True` flag, which `bulk_scrape`
has already filtered on when a row reaches the table). -/
structure Row where
  url : String
  emails : List String
  ai_analysis : Option String
deriving DecidableEq, Repr

/-- The dict returned by `scrape_website`: `success: False` with an
`error` message, or `success: True` with the row data. -/
inductive ScrapeResult where
  | failure (error : String)
  | success (row : Row)
deriving DecidableEq, Repr

/-- The external world of one run. -/
structure Env where
  /-- `os.getenv('CUSTOM_SEARCH_API_KEY')`: `none` = unset, `some ""` = empty. -/
  googleApiKey : Option String
  /-- `os.getenv('SEARCH_ENGINE_ID')`. -/
  searchEngineId : Option String
  /-- The Google Custom Search call: `none` = the request raises (caught
  at line 58); `some none` = JSON without an `items` key; `some (some
  links)` = the `link` fields of the `items` array. -/
  searchItems : Option (Option (List String))
  /-- `requests.get(url, ...).text` for a page fetch: `none` = the
  request or `raise_for_status` raises (caught at line 87). -/
  fetch : String → Option String
  /-- `BeautifulSoup(content, 'html.parser').get_text()`. -/
  getText : String → String
  /-- The OpenAI chat completion on a (role, content) message list:
  `Except.error` = the call raises (caught at line 124), `Except.ok` =
  `response.choices[0].message.content`. -/
  aiComplete : List (String × String) → Except String String

/-- Python truthiness test `not x` for an optional string: true for
`None` and for the empty string. -/
def falsyStr : Option String → Bool
  | none => true
  | some s => s == ""

/-- The fixed search endpoint (line 41). -/
def searchEndpoint : String := "https://www.googleapis.com/customsearch/v1"

/-- `AIScraper.search_web` (lines 27-60).  Returns the Python result
(`Except.error` = the `ValueError` raised at line 39) together with the
number of HTTP requests the call issued.  The request parameters
(`key`, `cx`, `q`, `num = min max_results 10`) only shape the provider's
response, which `Env.searchItems` supplies, so they are not modelled
beyond being accepted here. -/
def search_web (env : Env) (query : String) (max_results : Nat) :
    Except String (List String) × Nat :=
  if falsyStr env.googleApiKey || falsyStr env.searchEngineId then
    (Except.error "Google Custom Search API key and Search Engine ID are required", 0)
  else
    match env.searchItems with
    | none => (Except.ok [], 1)
    | some none => (Except.ok [], 1)
    | some (some links) => (Except.ok links, 1)

/-- `AIScraper.get_page_content` (lines 70-89): the `try/except` around
`requests.get` + `raise_for_status` becomes `Option`.  The
`_respect_rate_limit()` call only spends time; its clock behaviour is
modelled separately by `respect_rate_limit` below. -/
def get_page_content (env : Env) (url : String) : Option String :=
  env.fetch url

/-- Python character slicing `s[:n]`. -/
def strTake (s : String) (n : Nat) : String :=
  String.mk (s.data.take n)

/-- The fixed system message of the chat request (line 119). -/
def systemContent : String := "You are a helpful assistant that analyzes web content."

/-- The two-message payload of `analyze_with_ai` (lines 118-121):
system framing plus the user prompt with the content truncated to 4000
characters. -/
def analyze_messages (content prompt : String) : List (String × String) :=
  [("system", systemContent),
   ("user", prompt ++ "\n\nContent: " ++ strTake content 4000)]

/-- `AIScraper.analyze_with_ai` (lines 104-125): issue the chat request;
`Except.ok` = the `success: True` dict with the analysis text,
`Except.error` = the `success: False` dict with the error string. -/
def analyze_with_ai (env : Env) (content prompt : String) : Except String String :=
  env.aiComplete (analyze_messages content prompt)

/-- `AIScraper.scrape_website` (lines 127-153), paired with the list of
page URLs it issues fetch requests for (always exactly one — the fetch
is attempted before any check).  `if not content:` fails on both `None`
(fetch raised) and the empty string (empty body). -/
def scrape_website (env : Env) (url ai_prompt : String) :
    ScrapeResult × List String :=
  match get_page_content env url with
  | none => (ScrapeResult.failure "Failed to fetch content", [url])
  | some content =>
    if content == "" then (ScrapeResult.failure "Failed to fetch content", [url])
    else
      let text_content := env.getText content
      let emails := extract_emails content
      let ai := analyze_with_ai env text_content ai_prompt
      (ScrapeResult.success
        { url := url, emails := emails,
          ai_analysis := match ai with
            | Except.ok a => some a
            | Except.error _ => none },
       [url])

/-- `AIScraper.bulk_scrape` (lines 176-201), paired with the page URLs
fetched: URLs are processed in order, only `success` results are
appended to the list the DataFrame is built from. -/
def bulk_scrape (env : Env) (urls : List String) (ai_prompt : String) :
    List Row × List String :=
  match urls with
  | [] => ([], [])
  | u :: rest =>
    let r := scrape_website env u ai_prompt
    let rest' := bulk_scrape env rest ai_prompt
    match r.1 with
    | ScrapeResult.success row => (row :: rest'.1, r.2 ++ rest'.2)
    | ScrapeResult.failure _ => (rest'.1, r.2 ++ rest'.2)

/-- The rows `bulk_scrape` writes to the CSV at lines 193-199
(`df.to_csv(csv_path, index=False)` — written once per run, overwriting
the file), which are also the rows of the returned DataFrame. -/
def bulk_scrape_rows (env : Env) (urls : List String) (ai_prompt : String) :
    List Row :=
  (bulk_scrape env urls ai_prompt).1

/-- Whether the fetch of `url` yields usable content: a body that is
neither an error (`None`) nor empty — the exact condition under which
`scrape_website` reaches its `success: True` branch. -/
def fetchOk (env : Env) (url : String) : Bool :=
  match env.fetch url with
  | none => false
  | some c => !(c == "")

/-- The network activity of one `search_and_analyze` run. -/
structure RunTrace where
  searchRequests : Nat
  pageFetches : List String
deriving DecidableEq, Repr

/-- `AIScraper.search_and_analyze` (lines 155-174): search, then
`if not urls: return pd.DataFrame()`, else `bulk_scrape`.  The
`ValueError` from `search_web` propagates (there is no `try` here). -/
def search_and_analyze (env : Env) (search_query ai_prompt : String)
    (max_results : Nat) : Except String (List Row) × RunTrace :=
  match search_web env search_query max_results with
  | (Except.error e, n) => (Except.error e, ⟨n, []⟩)
  | (Except.ok urls, n) =>
    if urls.isEmpty then (Except.ok [], ⟨n, []⟩)
    else
      let b := bulk_scrape env urls ai_prompt
      (Except.ok b.1, ⟨n, b.2⟩)

/-! ## Rate limiter clock model

`_respect_rate_limit` (lines 62-68) reads `time.time()`, sleeps for the
remainder of the `1 / rate_limit` interval if the last request was too
recent, and stores the post-sleep `time.time()` as
`last_request_time`.  Time is modelled as an exact rational clock:
`time.sleep(d)` advances it by `d` (a real sleep only takes longer,
which can only increase the gaps bounded below here). -/

/-- One `_respect_rate_limit()` call: given the clock reading `now` and
the stored `last_request_time`, returns the new clock value = the new
`last_request_time` = the time at which the following request is
issued. -/
def respect_rate_limit (rate_limit now last_request_time : ℚ) : ℚ :=
  if now - last_request_time < 1 / rate_limit then
    now + (1 / rate_limit - (now - last_request_time))
  else now

/-- The request times of a sequence of `get_page_content` calls:
`ds` lists, for each call, the time that passes between the previous
call's request and this call's `_respect_rate_limit` clock read
(processing, the fetch itself, etc.). -/
def requestTimes (rate_limit : ℚ) : List ℚ → ℚ → ℚ → List ℚ
  | [], _, _ => []
  | d :: ds, now, last =>
    let r := respect_rate_limit rate_limit (now + d) last
    r :: requestTimes rate_limit ds r r

/-! ## Concrete environments used to instantiate the theorems -/

/-- Fully configured, fetches succeed, the model call fails. -/
def envAnalysisFails : Env where
  googleApiKey := some "key"
  searchEngineId := some "engine"
  searchItems := some (some ["https://example.com"])
  fetch := fun _ => some "hello world"
  getText := fun s => s
  aiComplete := fun _ => Except.error "model unavailable"

/-- The search API key is unset. -/
def envNoCreds : Env where
  googleApiKey := none
  searchEngineId := some "engine"
  searchItems := some (some ["https://example.com"])
  fetch := fun _ => some "hello"
  getText := fun s => s
  aiComplete := fun _ => Except.ok "fine"

/-- The only page carries its email address inside a `mailto:`
attribute; `get_text` drops the markup and with it the address. -/
def envMailto : Env where
  googleApiKey := some "key"
  searchEngineId := some "engine"
  searchItems := some (some ["https://shop.example"])
  fetch := fun _ => some "<a href=\"mailto:sales@shop.example\">Contact us</a>"
  getText := fun _ => "Contact us"
  aiComplete := fun _ => Except.ok "a shop"

/-- The search succeeds but its `items` array is empty. -/
def envEmptySearch : Env where
  googleApiKey := some "key"
  searchEngineId := some "engine"
  searchItems := some (some [])
  fetch := fun _ => some "page"
  getText := fun s => s
  aiComplete := fun _ => Except.ok "fine"

/-- Exactly the URL `https://down.example` fails to fetch. -/
def envOneFetchFails : Env where
  googleApiKey := some "key"
  searchEngineId := some "engine"
  searchItems := some (some ["https://down.example", "https://ok.example"])
  fetch := fun u =>
    if u == "https://down.example" then none
    else some "<p>mail me: info@ok.example</p>"
  getText := fun _ => "mail me:"
  aiComplete := fun _ => Except.ok "fine"

/-- Exactly the URL `https://empty.example` fetches an empty body. -/
def envEmptyBody : Env where
  googleApiKey := some "key"
  searchEngineId := some "engine"
  searchItems := some (some ["https://empty.example", "https://ok.example"])
  fetch := fun u =>
    if u == "https://empty.example" then some ""
    else some "<p>write to y@z.se</p>"
  getText := fun _ => "write to y@z.se"
  aiComplete := fun _ => Except.ok "fine"

/-! ## Lemmas about the email scanner -/

/-- Inversion of `tryK`: a successful tail match picks a dot position
`kk ≥ 1` within the budget, followed by the maximal ASCII-letter run,
which has length at least 2. -/
theorem tryK_eq_some {brun : List Char} {k0 t : Nat}
    (h : tryK brun k0 = some t) :
    ∃ kk, 1 ≤ kk ∧ kk ≤ k0 ∧ brun.getD kk ' ' = '.' ∧
      2 ≤ ((brun.drop (kk + 1)).takeWhile isAsciiLetter).length ∧
      t = kk + 1 + ((brun.drop (kk + 1)).takeWhile isAsciiLetter).length := by
  induction k0 with
  | zero => simp [tryK] at h
  | succ k ih =>
    rw [tryK] at h
    split at h
    · rename_i hc
      refine ⟨k + 1, by omega, le_refl _, hc.1, hc.2, ?_⟩
      injection h with h
      omega
    · obtain ⟨kk, h1, h2, h3, h4, h5⟩ := ih h
      exact ⟨kk, h1, by omega, h3, h4, h5⟩

/-- Taking as many elements as a known prefix recovers that prefix. -/
theorem take_of_eq_append {α : Type} {xs tw dw : List α}
    (h : xs = tw ++ dw) : xs.take tw.length = tw := by
  rw [h]
  exact List.take_left _ _

/-- A non-default `getD` means the index is in range. -/
theorem getD_dot_lt {brun : List Char} {kk : Nat}
    (h : brun.getD kk ' ' = '.') : kk < brun.length := by
  by_contra hk
  rw [List.getD_eq_default _ _ (by omega)] at h
  exact absurd h (by decide)

/-- Inversion of `tailMatch`: the matched characters decompose as a
non-empty class-B run, a dot, and at least two ASCII letters. -/
theorem tailMatch_shape {cs : List Char} {t : Nat}
    (h : tailMatch cs = some t) :
    ∃ b l, cs.take t = b ++ '.' :: l ∧ b ≠ [] ∧ (∀ c ∈ b, isClassB c) ∧
      2 ≤ l.length ∧ (∀ c ∈ l, isAsciiLetter c) ∧ 1 ≤ t := by
  rw [tailMatch] at h
  obtain ⟨kk, hk1, hk2, hdot, hlen2, ht⟩ := tryK_eq_some h
  set brun := cs.takeWhile isClassB with hbrun
  set l := (brun.drop (kk + 1)).takeWhile isAsciiLetter with hl
  have hkk_lt : kk < brun.length := getD_dot_lt hdot
  have hl_le : l.length ≤ brun.length - (kk + 1) := by
    calc l.length ≤ (brun.drop (kk + 1)).length :=
          (List.takeWhile_sublist _).length_le
    _ = brun.length - (kk + 1) := List.length_drop _ _
  have ht_le : t ≤ brun.length := by omega
  have hsplit : cs.take t = brun.take t := by
    conv =>
      lhs
      rw [show cs = brun ++ cs.dropWhile isClassB from
        (List.takeWhile_append_dropWhile isClassB cs).symm]
    rw [List.take_append_eq_append_take, Nat.sub_eq_zero_of_le ht_le,
      List.take_zero, List.append_nil]
  have hdropkk : brun.drop kk = '.' :: brun.drop (kk + 1) := by
    rw [List.drop_eq_getElem_cons hkk_lt]
    rw [List.getD_eq_getElem brun ' ' hkk_lt] at hdot
    rw [hdot]
  have htake_l : (brun.drop (kk + 1)).take l.length = l :=
    take_of_eq_append (List.takeWhile_append_dropWhile isAsciiLetter _).symm
  refine ⟨brun.take kk, l, ?_, ?_, ?_, hlen2, ?_, by omega⟩
  · rw [hsplit, ht, show kk + 1 + l.length = kk + (1 + l.length) by omega,
      List.take_add, hdropkk,
      show 1 + l.length = l.length + 1 by omega, List.take_succ_cons, htake_l]
  · have : (brun.take kk).length = kk := by
      rw [List.length_take]
      omega
    intro hnil
    rw [hnil] at this
    simp at this
    omega
  · intro c hc
    exact List.mem_takeWhile_imp (List.take_subset _ _ hc)
  · intro c hc
    exact List.mem_takeWhile_imp hc

/-- Inversion of `matchAt`: the matched characters are a full match of
the email pattern, and the match is non-empty. -/
theorem matchAt_shape {cs : List Char} {n : Nat}
    (h : matchAt cs = some n) : emailShape (cs.take n) ∧ 1 ≤ n := by
  rw [matchAt] at h
  split at h
  · exact absurd h (by simp)
  · rename_i ha
    split at h
    · rename_i rest2 hdrop
      split at h
      · rename_i t htail
        obtain ⟨b, l, hbl, hbne, hbB, hl2, hlL, _⟩ := tailMatch_shape htail
        have hn : n = (cs.takeWhile isClassA).length + (1 + t) := by
          injection h with h
          omega
        have htake_a : cs.take (cs.takeWhile isClassA).length =
            cs.takeWhile isClassA :=
          take_of_eq_append (List.takeWhile_append_dropWhile isClassA cs).symm
        constructor
        · refine ⟨cs.takeWhile isClassA, b, l, ?_, ?_, ?_, hbne, hbB, hl2, hlL⟩
          · rw [hn, List.take_add, htake_a, hdrop,
              show 1 + t = t + 1 by omega, List.take_succ_cons, hbl]
          · intro hnil
            rw [hnil] at ha
            simp at ha
          · intro c hc
            exact List.mem_takeWhile_imp hc
        · omega
      · exact absurd h (by simp)
    · exact absurd h (by simp)

/-- Every element emitted by the fuelled scan is a full match of the
email pattern. -/
theorem findallAux_shape :
    ∀ (fuel : Nat) (cs : List Char), ∀ e ∈ findallAux fuel cs, emailShape e := by
  intro fuel
  induction fuel with
  | zero => intro cs e he; simp [findallAux] at he
  | succ fuel ih =>
    intro cs e he
    match cs with
    | [] => simp [findallAux] at he
    | c :: rest =>
      rw [findallAux] at he
      cases hm : matchAt (c :: rest) with
      | none =>
        rw [hm] at he
        exact ih rest e he
      | some n =>
        rw [hm] at he
        rcases List.mem_cons.mp he with rfl | hmem
        · exact (matchAt_shape hm).1
        · exact ih _ e hmem

/-- Every element of `findall` is a full match of the email pattern. -/
theorem findall_shape (cs : List Char) : ∀ e ∈ findall cs, emailShape e :=
  findallAux_shape cs.length cs

/-! ## Lemmas about the pipeline -/

/-- A fetch that raises yields the failure dict. -/
theorem scrape_website_fetch_none {env : Env} {u p : String}
    (h : env.fetch u = none) :
    scrape_website env u p = (ScrapeResult.failure "Failed to fetch content", [u]) := by
  simp [scrape_website, get_page_content, h]

/-- A fetch that returns an empty body yields the failure dict. -/
theorem scrape_website_fetch_empty {env : Env} {u p : String}
    (h : env.fetch u = some "") :
    scrape_website env u p = (ScrapeResult.failure "Failed to fetch content", [u]) := by
  simp [scrape_website, get_page_content, h]

/-- A fetch with non-empty body yields the success dict, with emails
extracted from the raw body `c` and the analysis from `get_text c`. -/
theorem scrape_website_fetch_ok {env : Env} {u p c : String}
    (h : env.fetch u = some c) (hc : c ≠ "") :
    scrape_website env u p =
      (ScrapeResult.success
        { url := u, emails := extract_emails c,
          ai_analysis := match analyze_with_ai env (env.getText c) p with
            | Except.ok a => some a
            | Except.error _ => none }, [u]) := by
  simp [scrape_website, get_page_content, h, hc]

/-- A success dict's `url` field is the scraped URL. -/
theorem scrape_website_success_url {env : Env} {u p : String} {row : Row}
    (h : (scrape_website env u p).1 = ScrapeResult.success row) : row.url = u := by
  cases hf : env.fetch u with
  | none => rw [scrape_website_fetch_none hf] at h; exact absurd h (by simp)
  | some c =>
    by_cases hc : c = ""
    · rw [hc] at hf
      rw [scrape_website_fetch_empty hf] at h
      exact absurd h (by simp)
    · rw [scrape_website_fetch_ok hf hc] at h
      cases h
      rfl

/-- `scrape_website` reaches its success branch exactly when the fetch
yields usable (non-`None`, non-empty) content. -/
theorem scrape_website_success_iff (env : Env) (u p : String) :
    (∃ row, (scrape_website env u p).1 = ScrapeResult.success row) ↔
      fetchOk env u = true := by
  cases hf : env.fetch u with
  | none =>
    rw [scrape_website_fetch_none hf]
    simp [fetchOk, hf]
  | some c =>
    by_cases hc : c = ""
    · rw [hc] at hf
      rw [scrape_website_fetch_empty hf]
      simp [fetchOk, hf]
    · rw [scrape_website_fetch_ok hf hc]
      simp [fetchOk, hf, hc]

/-- Unfolding `bulk_scrape_rows` one URL at a time. -/
theorem bulk_scrape_rows_cons (env : Env) (u : String) (rest : List String)
    (p : String) :
    bulk_scrape_rows env (u :: rest) p =
      match (scrape_website env u p).1 with
      | ScrapeResult.success row => row :: bulk_scrape_rows env rest p
      | ScrapeResult.failure _ => bulk_scrape_rows env rest p := by
  rw [bulk_scrape_rows, bulk_scrape]
  cases (scrape_website env u p).1 <;> rfl

/-- A URL whose scrape fails contributes nothing to the table, wherever
it sits in the list, and the remaining URLs are processed unchanged. -/
theorem bulk_scrape_rows_skip {env : Env} {u p : String}
    (hfail : ∃ e, (scrape_website env u p).1 = ScrapeResult.failure e) :
    ∀ pre post : List String,
      bulk_scrape_rows env (pre ++ u :: post) p =
        bulk_scrape_rows env (pre ++ post) p := by
  intro pre
  induction pre with
  | nil =>
    intro post
    obtain ⟨e, he⟩ := hfail
    simp only [List.nil_append, bulk_scrape_rows_cons, he]
  | cons v pre ih =>
    intro post
    simp only [List.cons_append, bulk_scrape_rows_cons]
    cases (scrape_website env v p).1 <;> simp [ih post]

/-- Every row of the table is the success dict its own URL scrapes to. -/
theorem bulk_scrape_rows_mem {env : Env} {p : String} :
    ∀ {urls : List String} {row : Row}, row ∈ bulk_scrape_rows env urls p →
      (scrape_website env row.url p).1 = ScrapeResult.success row := by
  intro urls
  induction urls with
  | nil => intro row h; simp [bulk_scrape_rows, bulk_scrape] at h
  | cons u rest ih =>
    intro row h
    rw [bulk_scrape_rows_cons] at h
    cases hs : (scrape_website env u p).1 with
    | failure e => rw [hs] at h; exact ih h
    | success row0 =>
      rw [hs] at h
      rcases List.mem_cons.mp h with rfl | hmem
      · rw [scrape_website_success_url hs]
        exact hs
      · exact ih hmem

/-- A URL not in the input list owns no rows of the table. -/
theorem bulk_scrape_rows_countP_not_mem {env : Env} {p u : String} :
    ∀ {urls : List String}, u ∉ urls →
      (bulk_scrape_rows env urls p).countP (fun row => row.url == u) = 0 := by
  intro urls
  induction urls with
  | nil => intro _; simp [bulk_scrape_rows, bulk_scrape]
  | cons v rest ih =>
    intro hu
    rw [bulk_scrape_rows_cons]
    have hne : u ≠ v := fun h => hu (h ▸ List.mem_cons_self v rest)
    have hrest : u ∉ rest := fun h => hu (List.mem_cons_of_mem v h)
    cases hs : (scrape_website env v p).1 with
    | failure e => exact ih hrest
    | success row =>
      rw [List.countP_cons]
      have : (row.url == u) = false := by
        rw [scrape_website_success_url hs]
        exact beq_eq_false_iff_ne.mpr (Ne.symm hne)
      simp [this, ih hrest]

/-! ## Lemmas about the rate limiter -/

/-- One `_respect_rate_limit` call never issues the next request less
than `1 / rate_limit` seconds after the previous one: if too little
time passed it sleeps for exactly the remainder, otherwise enough time
has already passed. -/
theorem respect_gap (rate_limit now last : ℚ) :
    last + 1 / rate_limit ≤ respect_rate_limit rate_limit now last := by
  rw [respect_rate_limit]
  split <;> linarith

/-- Unfolding one `get_page_content` call's request time. -/
theorem requestTimes_cons (rate_limit d now last : ℚ) (ds : List ℚ) :
    requestTimes rate_limit (d :: ds) now last =
      respect_rate_limit rate_limit (now + d) last ::
        requestTimes rate_limit ds (respect_rate_limit rate_limit (now + d) last)
          (respect_rate_limit rate_limit (now + d) last) := by
  rw [requestTimes]

/-- Consecutive request times are at least `1 / rate_limit` apart. -/
theorem requestTimes_chain (rate_limit : ℚ) :
    ∀ (ds : List ℚ) (now last : ℚ),
      (requestTimes rate_limit ds now last).Chain'
        (fun a b => a + 1 / rate_limit ≤ b) := by
  intro ds
  induction ds with
  | nil => intro now last; simp [requestTimes]
  | cons d ds ih =>
    intro now last
    rw [requestTimes_cons]
    cases ds with
    | nil => simp [requestTimes]
    | cons d' ds' =>
      rw [requestTimes_cons]
      exact List.chain'_cons.mpr ⟨respect_gap _ _ _, by rw [← requestTimes_cons]; exact ih _ _⟩

/-- The last of `N ≥ 1` request times is at least `last + N / rate_limit`. -/
theorem requestTimes_last_bound (rate_limit : ℚ) :
    ∀ (ds : List ℚ) (now last dflt : ℚ), ds ≠ [] →
      last + (ds.length : ℚ) * (1 / rate_limit) ≤
        (requestTimes rate_limit ds now last).getLastD dflt := by
  intro ds
  induction ds with
  | nil => intro _ _ _ h; exact absurd rfl h
  | cons d ds ih =>
    intro now last dflt _
    rw [requestTimes_cons, List.getLastD_cons]
    cases ds with
    | nil =>
      have := respect_gap rate_limit (now + d) last
      simp only [requestTimes, List.getLastD, List.length_cons, List.length_nil]
      push_cast
      linarith
    | cons d' ds' =>
      have hgap := respect_gap rate_limit (now + d) last
      have hrec := ih (respect_rate_limit rate_limit (now + d) last)
        (respect_rate_limit rate_limit (now + d) last)
        (respect_rate_limit rate_limit (now + d) last) (by simp)
      simp only [List.length_cons] at hrec ⊢
      push_cast at hrec ⊢
      linarith

/-! ## Lemmas about `search_web` -/

/-- Missing credentials: the `ValueError` is raised before the HTTP
request is built. -/
theorem search_web_no_creds {env : Env} (query : String) (max_results : Nat)
    (h : falsyStr env.googleApiKey = true ∨ falsyStr env.searchEngineId = true) :
    search_web env query max_results =
      (Except.error "Google Custom Search API key and Search Engine ID are required", 0) := by
  rw [search_web]
  rcases h with h | h <;> simp [h]

/-! ## The claims -/

/-- Claim C1, counterexample: with a successful fetch but a failed AI
analysis, `bulk_scrape` still writes a row for the URL (with an empty
analysis field), so "a URL appears as a row if and only if both its
fetch and its AI analysis succeeded" is false as stated. -/
theorem bulk_scrape_row_despite_failed_analysis :
    bulk_scrape_rows envAnalysisFails ["https://example.com"] "p" =
      [{ url := "https://example.com", emails := [], ai_analysis := none }] ∧
    analyze_with_ai envAnalysisFails (envAnalysisFails.getText "hello world") "p" =
      Except.error "model unavailable" := by
  constructor
  · rfl
  · rfl

/-- Claim C1, amended: the persisted CSV table contains exactly one row
per URL whose *fetch* succeeded (non-`None`, non-empty body) — a URL of
the list appears as a row if and only if its fetch succeeded; a failed
AI analysis does not remove the row, it only leaves the analysis field
empty. -/
theorem bulk_scrape_rows_iff_fetch_success
    (env : Env) (ai_prompt : String) (urls : List String) (hnd : urls.Nodup)
    (u : String) (hu : u ∈ urls) :
    (bulk_scrape_rows env urls ai_prompt).countP (fun row => row.url == u) =
      if fetchOk env u then 1 else 0 := by
  induction urls with
  | nil => cases hu
  | cons v rest ih =>
    have hvrest : v ∉ rest := (List.nodup_cons.mp hnd).1
    have hndrest : rest.Nodup := (List.nodup_cons.mp hnd).2
    rw [bulk_scrape_rows_cons]
    rcases List.mem_cons.mp hu with rfl | hmem
    · cases hs : (scrape_website env u ai_prompt).1 with
      | failure e =>
        have hnot : fetchOk env u = false := by
          cases hfo : fetchOk env u with
          | false => rfl
          | true =>
            obtain ⟨row, hsucc⟩ := (scrape_website_success_iff env u ai_prompt).mpr hfo
            rw [hs] at hsucc
            cases hsucc
        rw [bulk_scrape_rows_countP_not_mem hvrest, hnot]
        simp
      | success row =>
        have hok : fetchOk env u = true :=
          (scrape_website_success_iff env u ai_prompt).mp ⟨row, hs⟩
        rw [List.countP_cons, bulk_scrape_rows_countP_not_mem hvrest, hok]
        have hbeq : (row.url == u) = true := by
          rw [scrape_website_success_url hs]
          exact beq_self_eq_true u
        simp [hbeq]
    · have hne : u ≠ v := fun h => hvrest (h ▸ hmem)
      cases hs : (scrape_website env v ai_prompt).1 with
      | failure e => exact ih hndrest hmem
      | success row =>
        rw [List.countP_cons]
        have hbeq : (row.url == u) = false := by
          rw [scrape_website_success_url hs]
          exact beq_eq_false_iff_ne.mpr (Ne.symm hne)
        simp [hbeq, ih hndrest hmem]

/-- Witness for the amended claim C1 at a concrete input. -/
theorem bulk_scrape_rows_iff_fetch_success_witness :
    (bulk_scrape_rows envAnalysisFails ["https://example.com"] "p").countP
        (fun row => row.url == "https://example.com") =
      if fetchOk envAnalysisFails "https://example.com" then 1 else 0 :=
  bulk_scrape_rows_iff_fetch_success envAnalysisFails "p" ["https://example.com"]
    (by simp) "https://example.com" (by simp)

/-- Claim C2, counterexample: with the API key unset, `search_web`
raises a `ValueError` — it does not return an empty list. -/
theorem search_web_missing_creds_cex :
    (search_web envNoCreds "tech startups" 5).1 =
      Except.error "Google Custom Search API key and Search Engine ID are required" ∧
    (search_web envNoCreds "tech startups" 5).1 ≠ Except.ok [] := by
  constructor
  · rfl
  · intro hcontra
    rw [@search_web_no_creds envNoCreds "tech startups" 5 (Or.inl rfl)]
      at hcontra
    cases hcontra

/-- Claim C2, amended: a `search_web` call with a missing API key or a
missing search engine ID raises a `ValueError` — the caller gets an
exception, not an empty list — and issues no HTTP request.  (Transport
and HTTP errors of a credentialed call are the ones caught and logged,
yielding an empty list.) -/
theorem search_web_missing_creds_raises (env : Env) (query : String)
    (max_results : Nat)
    (h : falsyStr env.googleApiKey = true ∨ falsyStr env.searchEngineId = true) :
    search_web env query max_results =
      (Except.error "Google Custom Search API key and Search Engine ID are required", 0) :=
  search_web_no_creds query max_results h

/-- Witness for the amended claim C2 at a concrete input. -/
theorem search_web_missing_creds_raises_witness :
    search_web envNoCreds "tech startups" 5 =
      (Except.error "Google Custom Search API key and Search Engine ID are required", 0) :=
  search_web_missing_creds_raises envNoCreds "tech startups" 5 (Or.inl rfl)

/-- Claim C3: a run with missing search credentials aborts at the
`search_web` call with a raised `ValueError`, before any network
activity — the whole `search_and_analyze` run performs zero search
requests and zero page fetches. -/
theorem run_aborts_before_network_on_missing_creds
    (env : Env) (search_query ai_prompt : String) (max_results : Nat)
    (h : falsyStr env.googleApiKey = true ∨ falsyStr env.searchEngineId = true) :
    search_and_analyze env search_query ai_prompt max_results =
      (Except.error "Google Custom Search API key and Search Engine ID are required",
       ⟨0, []⟩) := by
  rw [search_and_analyze, search_web_no_creds _ _ h]

/-- Witness for claim C3 at a concrete input. -/
theorem run_aborts_before_network_on_missing_creds_witness :
    search_and_analyze envNoCreds "tech startups" "analyze" 5 =
      (Except.error "Google Custom Search API key and Search Engine ID are required",
       ⟨0, []⟩) :=
  run_aborts_before_network_on_missing_creds envNoCreds "tech startups" "analyze" 5
    (Or.inl rfl)

/-- Claim C4: `extract_emails` returns exactly the set of distinct
matches of the email pattern in the input: no element occurs twice, the
returned elements and the scanner's matches are equal as sets (each
match occurs among the returned elements and vice versa), and every
returned element is a full match of the pattern. -/
theorem extract_emails_exact_distinct_matches (text : String) :
    (extract_emails text).Nodup ∧
    (extract_emails text).toFinset =
      ((findall text.data).map (fun cs => String.mk cs)).toFinset ∧
    (extract_emails text).Forall (fun e => emailShape e.data) := by
  refine ⟨List.nodup_dedup _, ?_, ?_⟩
  · ext x
    simp [extract_emails, List.mem_dedup]
  · rw [List.forall_iff_forall_mem]
    intro e he
    rw [extract_emails, List.mem_dedup] at he
    obtain ⟨cs, hcs, rfl⟩ := List.mem_map.mp he
    exact findall_shape _ cs hcs

/-- Claim C5: on a successful fetch, the emails of the resulting row
are extracted from the raw fetched markup `c` itself — whatever visible
text the HTML parser's `get_text` produces, the row carries
`extract_emails c`. -/
theorem scrape_website_emails_from_raw_html
    (env : Env) (url ai_prompt c : String)
    (h : env.fetch url = some c) (hc : c ≠ "") :
    ∀ g : String → String, ∃ a : Option String,
      (scrape_website { env with getText := g } url ai_prompt).1 =
        ScrapeResult.success
          { url := url, emails := extract_emails c, ai_analysis := a } := by
  intro g
  refine ⟨match analyze_with_ai { env with getText := g } (g c) ai_prompt with
    | Except.ok a => some a
    | Except.error _ => none, ?_⟩
  rw [@scrape_website_fetch_ok { env with getText := g } url ai_prompt c h hc]

/-- Witness for claim C5: a page whose address appears only in a
`mailto:` attribute; raw-markup extraction finds it, the visible text
does not contain it. -/
theorem scrape_website_emails_from_raw_html_witness :
    extract_emails "<a href=\"mailto:sales@shop.example\">Contact us</a>" =
      ["sales@shop.example"] ∧
    extract_emails "Contact us" = [] ∧
    (∀ g : String → String, ∃ a : Option String,
      (scrape_website { envMailto with getText := g } "https://shop.example" "p").1 =
        ScrapeResult.success
          { url := "https://shop.example",
            emails := extract_emails "<a href=\"mailto:sales@shop.example\">Contact us</a>",
            ai_analysis := a }) :=
  ⟨by decide, by decide,
   scrape_website_emails_from_raw_html envMailto "https://shop.example" "p"
     "<a href=\"mailto:sales@shop.example\">Contact us</a>" rfl (by decide)⟩

/-- Claim C6: regardless of environment, content and prompt, the chat
request `analyze_with_ai` sends carries the content truncated to the
4000-character budget: the sent text is `content[:4000]`, a prefix of
the content of length at most 4000. -/
theorem analyze_with_ai_truncates_content (env : Env) (content prompt : String) :
    analyze_with_ai env content prompt =
      env.aiComplete [("system", systemContent),
        ("user", prompt ++ "\n\nContent: " ++ strTake content 4000)] ∧
    (strTake content 4000).length ≤ 4000 ∧
    strTake content 4000 ++ String.mk (content.data.drop 4000) = content := by
  refine ⟨rfl, ?_, ?_⟩
  · show (content.data.take 4000).length ≤ 4000
    rw [List.length_take]
    omega
  · show String.mk (content.data.take 4000 ++ content.data.drop 4000) = content
    rw [List.take_append_drop]

/-- Claim C7: with rate limit `rate_limit` (interval
`T = 1 / rate_limit`), over any sequence of `n + 1` sequential
`get_page_content` calls the rate limiter sleeps so that consecutive
request times are at least `T` apart, and the elapsed time between the
first and the last request is at least `n * T`. -/
theorem rate_limited_requests_elapsed_bound
    (rate_limit t0 l0 : ℚ) (ds : List ℚ) (n : Nat)
    (hn : ds.length = n + 1) :
    (requestTimes rate_limit ds t0 l0).Chain'
      (fun a b => a + 1 / rate_limit ≤ b) ∧
    (requestTimes rate_limit ds t0 l0).headD 0 + (n : ℚ) * (1 / rate_limit) ≤
      (requestTimes rate_limit ds t0 l0).getLastD 0 := by
  refine ⟨requestTimes_chain _ _ _ _, ?_⟩
  cases ds with
  | nil => simp at hn
  | cons d ds' =>
    rw [requestTimes_cons, List.headD_cons, List.getLastD_cons]
    cases ds' with
    | nil =>
      have hn0 : n = 0 := by simpa using hn.symm
      subst hn0
      simp [requestTimes, List.getLastD]
    | cons d' ds'' =>
      have hlen : ((d' :: ds'').length : ℚ) = (n : ℚ) := by
        have : (d' :: ds'').length = n := by simpa using hn
        exact_mod_cast congrArg Nat.cast this
      have hb := requestTimes_last_bound rate_limit (d' :: ds'')
        (respect_rate_limit rate_limit (t0 + d) l0)
        (respect_rate_limit rate_limit (t0 + d) l0)
        (respect_rate_limit rate_limit (t0 + d) l0) (by simp)
      rw [hlen] at hb
      exact hb

/-- Witness for claim C7 at a concrete input: rate limit 2/s over three
calls with no extra processing time. -/
theorem rate_limited_requests_elapsed_bound_witness :
    (requestTimes 2 [0, 0, 0] 0 0).Chain' (fun a b => a + 1 / 2 ≤ b) ∧
    (requestTimes 2 [0, 0, 0] 0 0).headD 0 + ((2 : Nat) : ℚ) * (1 / 2) ≤
      (requestTimes 2 [0, 0, 0] 0 0).getLastD 0 :=
  rate_limited_requests_elapsed_bound 2 0 0 [0, 0, 0] 2 rfl

/-- Claim C8: when the search yields zero URLs, `search_and_analyze`
returns an empty table and fetches no target page. -/
theorem search_and_analyze_empty_search_no_fetch
    (env : Env) (search_query ai_prompt : String) (max_results : Nat)
    (h : (search_web env search_query max_results).1 = Except.ok []) :
    (search_and_analyze env search_query ai_prompt max_results).1 =
      Except.ok [] ∧
    (search_and_analyze env search_query ai_prompt max_results).2.pageFetches =
      [] := by
  rcases hpair : search_web env search_query max_results with ⟨r, nreq⟩
  rw [hpair] at h
  have hr : r = Except.ok [] := h
  subst hr
  simp [search_and_analyze, hpair]

/-- Witness for claim C8 at a concrete input. -/
theorem search_and_analyze_empty_search_no_fetch_witness :
    (search_and_analyze envEmptySearch "tech startups" "analyze" 5).1 =
      Except.ok [] ∧
    (search_and_analyze envEmptySearch "tech startups" "analyze" 5).2.pageFetches =
      [] :=
  search_and_analyze_empty_search_no_fetch envEmptySearch "tech startups" "analyze" 5
    rfl

/-- Claim C9: a URL whose fetch raises contributes no row, the failure
is swallowed (the call returns the failure dict rather than
propagating), the remaining URLs are processed unchanged, and every row
of the final table is a success result. -/
theorem bulk_scrape_skips_failed_fetch
    (env : Env) (ai_prompt u : String) (pre post : List String)
    (h : env.fetch u = none) :
    (scrape_website env u ai_prompt).1 =
      ScrapeResult.failure "Failed to fetch content" ∧
    bulk_scrape_rows env (pre ++ u :: post) ai_prompt =
      bulk_scrape_rows env (pre ++ post) ai_prompt ∧
    (bulk_scrape_rows env (pre ++ u :: post) ai_prompt).Forall
      (fun row => (scrape_website env row.url ai_prompt).1 =
        ScrapeResult.success row) := by
  have hfail : (scrape_website env u ai_prompt).1 =
      ScrapeResult.failure "Failed to fetch content" := by
    rw [scrape_website_fetch_none h]
  refine ⟨hfail, bulk_scrape_rows_skip ⟨_, hfail⟩ pre post, ?_⟩
  rw [List.forall_iff_forall_mem]
  intro row hrow
  exact bulk_scrape_rows_mem hrow

/-- Witness for claim C9 at a concrete input: the first URL's fetch
fails, the second URL still produces its row. -/
theorem bulk_scrape_skips_failed_fetch_witness :
    bulk_scrape_rows envOneFetchFails ["https://ok.example"] "p" =
      [{ url := "https://ok.example", emails := ["info@ok.example"],
         ai_analysis := some "fine" }] ∧
    ((scrape_website envOneFetchFails "https://down.example" "p").1 =
      ScrapeResult.failure "Failed to fetch content" ∧
    bulk_scrape_rows envOneFetchFails
        ([] ++ "https://down.example" :: ["https://ok.example"]) "p" =
      bulk_scrape_rows envOneFetchFails ([] ++ ["https://ok.example"]) "p" ∧
    (bulk_scrape_rows envOneFetchFails
        ([] ++ "https://down.example" :: ["https://ok.example"]) "p").Forall
      (fun row => (scrape_website envOneFetchFails row.url "p").1 =
        ScrapeResult.success row)) :=
  ⟨by decide,
   bulk_scrape_skips_failed_fetch envOneFetchFails "p" "https://down.example"
     [] ["https://ok.example"] rfl⟩

/-- Claim C10: an empty fetched body is handled exactly like a failed
fetch: `scrape_website` returns the failure dict with error "Failed to
fetch content" and the URL contributes no row to the table. -/
theorem scrape_website_empty_body_is_failure
    (env : Env) (ai_prompt u : String) (pre post : List String)
    (h : env.fetch u = some "") :
    scrape_website env u ai_prompt =
      (ScrapeResult.failure "Failed to fetch content", [u]) ∧
    bulk_scrape_rows env (pre ++ u :: post) ai_prompt =
      bulk_scrape_rows env (pre ++ post) ai_prompt := by
  have hfull := @scrape_website_fetch_empty env u ai_prompt h
  refine ⟨hfull, bulk_scrape_rows_skip ⟨"Failed to fetch content", ?_⟩ pre post⟩
  rw [hfull]

/-- Witness for claim C10 at a concrete input. -/
theorem scrape_website_empty_body_is_failure_witness :
    scrape_website envEmptyBody "https://empty.example" "p" =
      (ScrapeResult.failure "Failed to fetch content", ["https://empty.example"]) ∧
    bulk_scrape_rows envEmptyBody
        ([] ++ "https://empty.example" :: ["https://ok.example"]) "p" =
      bulk_scrape_rows envEmptyBody ([] ++ ["https://ok.example"]) "p" :=
  scrape_website_empty_body_is_failure envEmptyBody "p" "https://empty.example"
    [] ["https://ok.example"] rfl

end WebAIScraper
